import Mathlib

/-!
Verification of the reconstruction-and-classification core of
`src/python/analysis.py` (the `analysis.process` method): jet preselection,
dijet pairing, kinematic cut evaluation, quadjet ranking/selection and region
assignment.  Kinematic quantities are embedded as exact rationals.  The
Lorentz-vector operations supplied by the coffea `vector` behaviors
(invariant mass of a four-vector sum, `delta_r`) involve transcendental
functions of the stored (pt, eta, phi, mass) coordinates, so the embedding is
parametric in them (`VectorOps`); every general theorem below holds for all
such operations, and concrete evaluations instantiate them with a sample
instance.
-/

namespace Multijet

/-- A reconstructed jet as stored in the event record: transverse momentum,
pseudorapidity, azimuth and mass, as exact rationals. -/
structure Jet where
  pt : ℚ
  eta : ℚ
  phi : ℚ
  mass : ℚ
deriving DecidableEq

/-- An event: a weight and its ordered list of jets (`event.Jet`). -/
structure Event where
  weight : ℚ
  jets : List Jet
deriving DecidableEq

/-- Default jet used to totalize list indexing; the source would raise on an
out-of-range index, and every claim only touches in-range indices. -/
def padJet : Jet := ⟨0, 0, 0, 0⟩

/-- Indexing `event.Jet[:, i]` for one event: the jet at position `i` of the
raw jet list. -/
def jetAt (e : Event) (i : Nat) : Jet := e.jets.getD i padJet

/-- Line 71: `event['Jet','selected'] = (event.Jet.pt>=40) & (np.abs(event.Jet.eta)<=2.4)`. -/
def selected (j : Jet) : Bool := decide (40 ≤ j.pt) && decide (|j.eta| ≤ 12/5)

/-- Line 72: `event['nJet_selected'] = ak.sum(event.Jet.selected, axis=1)`. -/
def nJetSelected (e : Event) : Nat := (e.jets.filter selected).length

/-- Line 73: the batch filter `event = event[event.nJet_selected>=4]`. -/
def survives (e : Event) : Bool := decide (4 ≤ nJetSelected e)

/-- Line 81: first row of the pairing table, `([0,2],[0,1],[0,1])`. -/
def pairing0 : List (List Nat) := [[0, 2], [0, 1], [0, 1]]

/-- Line 82: second row of the pairing table, `([1,3],[2,3],[3,2])`. -/
def pairing1 : List (List Nat) := [[1, 3], [2, 3], [3, 2]]

/-- Jet index taken from the first pairing row at slot `s`, position `p`. -/
def idx0 (s p : Nat) : Nat := (pairing0.getD s []).getD p 0

/-- Jet index taken from the second pairing row at slot `s`, position `p`. -/
def idx1 (s p : Nat) : Nat := (pairing1.getD s []).getD p 0

/-- The coffea Lorentz-vector operations the core calls on jets.  Their
closed forms over (pt, eta, phi, mass) coordinates are transcendental
(hyperbolic functions for the summed mass, a wrapped angular distance for
`delta_r`), hence not representable as computable rational functions; the
embedding is parametric in them.  No claim under verification depends on
their functional form. -/
structure VectorOps where
  sumMass : List Jet → ℚ
  pairMass : Jet → Jet → ℚ
  deltaR : Jet → Jet → ℚ

/-- One dijet record as built on lines 83-87, before the in-pairing sort:
combined mass, scalar-pt sum `st`, angular separation `dr`, and the two
constituent jets stored as `lead` (from `pairing[0]`) and `subl`
(from `pairing[1]`). -/
structure DiJet where
  mass : ℚ
  st : ℚ
  dr : ℚ
  lead : Jet
  subl : Jet
deriving DecidableEq

/-- Lines 83-87 for one (event, slot `s`, position `p`):
`diJet = Jet[:,pairing[0]] + Jet[:,pairing[1]]` with fields
`st = pt + pt`, `dr = delta_r`, `lead`, `subl`. -/
def mkDiJet (V : VectorOps) (e : Event) (s p : Nat) : DiJet :=
  let a := jetAt e (idx0 s p)
  let b := jetAt e (idx1 s p)
  { mass := V.pairMass a b
    st := a.pt + b.pt
    dr := V.deltaR a b
    lead := a
    subl := b }

/-- Line 89: `diJet = diJet[ak.argsort(diJet.st, axis=2, ascending=False)]`,
the stable descending sort of the two dijets of slot `s` by `st`; afterwards
position 0 is the lead dijet and position 1 the subleading one. -/
def slotPair (V : VectorOps) (e : Event) (s : Nat) : DiJet × DiJet :=
  if (mkDiJet V e s 0).st < (mkDiJet V e s 1).st
  then (mkDiJet V e s 1, mkDiJet V e s 0)
  else (mkDiJet V e s 0, mkDiJet V e s 1)

/-- Line 93: `minDiJetMass = np.array([[[ 52, 50]]])`, indexed by sorted
position (0 = lead, 1 = subl). -/
def minDiJetMass (p : Nat) : ℚ := [52, 50].getD p 0

/-- Line 94: `maxDiJetMass = np.array([[[180,173]]])`. -/
def maxDiJetMass (p : Nat) : ℚ := [180, 173].getD p 0

/-- Line 98: `min_m4j_scale = np.array([[ 360, 235]])`. -/
def min_m4j_scale (p : Nat) : ℚ := [360, 235].getD p 0

/-- Line 99: `min_dr_offset = np.array([[-0.5, 0.0]])`. -/
def min_dr_offset (p : Nat) : ℚ := [-(1/2), 0].getD p 0

/-- Line 100: `max_m4j_scale = np.array([[ 650, 650]])`. -/
def max_m4j_scale (p : Nat) : ℚ := [650, 650].getD p 0

/-- Line 101: `max_dr_offset = np.array([[ 0.5, 0.7]])`. -/
def max_dr_offset (p : Nat) : ℚ := [1/2, 7/10].getD p 0

/-- Line 102: `max_dr = np.array([[ 1.5, 1.5]])`. -/
def max_dr (p : Nat) : ℚ := [3/2, 3/2].getD p 0

/-- Line 107: `mH = 125.0`. -/
def mH : ℚ := 125

/-- Line 108: `st_bias = np.array([[[1.02, 0.98]]])`. -/
def st_bias (p : Nat) : ℚ := [102/100, 98/100].getD p 0

/-- Line 109: `cH = mH * st_bias`. -/
def cH (p : Nat) : ℚ := mH * st_bias p

/-- A dijet together with the per-dijet classifier fields attached on
lines 95, 104 and 110. -/
structure CDiJet where
  mass : ℚ
  st : ℚ
  dr : ℚ
  lead : Jet
  subl : Jet
  diJetMass : Bool
  drc : Bool
  xH : ℚ
deriving DecidableEq

/-- Lines 95, 104, 110 for the dijet at sorted position `p` of an event with
four-jet mass `m4j`:
`diJet['diJetMass'] = (minDiJetMass < diJet.mass) & (diJet.mass < maxDiJetMass)`,
`diJet['drc'] = (min_m4j_scale/m4j + min_dr_offset < diJet.dr) & (diJet.dr < np.maximum(max_m4j_scale/m4j + max_dr_offset, max_dr))`,
`diJet['xH'] = (diJet.mass - cH)/(0.1*diJet.mass)`. -/
def classifyDiJet (p : Nat) (m4j : ℚ) (d : DiJet) : CDiJet :=
  { mass := d.mass
    st := d.st
    dr := d.dr
    lead := d.lead
    subl := d.subl
    diJetMass := decide (minDiJetMass p < d.mass) && decide (d.mass < maxDiJetMass p)
    drc := decide (min_m4j_scale p / m4j + min_dr_offset p < d.dr) &&
           decide (d.dr < max (max_m4j_scale p / m4j + max_dr_offset p) (max_dr p))
    xH := (d.mass - cH p) / (1/10 * d.mass) }

/-- Numpy boolean-to-number coercion used in the rank arithmetic of
line 128 (True = 1, False = 0). -/
def bq (b : Bool) : ℚ := if b then 1 else 0

/-- Line 123: `max_xHH = 1.9`. -/
def max_xHH : ℚ := 19/10

/-- One quadjet candidate, lines 115-128.  The source computes
`xHH = sqrt(lead.xH**2 + subl.xH**2)` and `SR = xHH < max_xHH`; the square
root of a rational is irrational in general, so the embedding carries the
square `xHHsq` and compares it with `max_xHH^2`, which is equivalent because
the square root is strictly monotone on nonnegatives (the equivalence with
the real square-root formulation is proved in the claim C4 theorem below).
The field `quadJet['dr']` of line 120 is computed by the source and never
consumed afterwards; it is omitted. -/
structure QuadJet where
  lead : CDiJet
  subl : CDiJet
  diJetMass : Bool
  random : ℚ
  xHHsq : ℚ
  SR : Bool
  SB : Bool
  rank : ℚ
deriving DecidableEq

/-- Lines 115-128 for one pairing slot: `lead`/`subl` are the sorted dijets,
`diJetMass = ak.all(diJet.diJetMass, axis=2)`, `random` the tie-break draw,
`SR = xHH < max_xHH`, `SB = diJetMass & ~SR`, and
`rank = 10*lead.diJetMass + 10*subl.diJetMass + lead.drc + subl.drc + random`. -/
def mkQuadJet (l s : CDiJet) (t : ℚ) : QuadJet :=
  let dm := l.diJetMass && s.diJetMass
  let sr := decide (l.xH ^ 2 + s.xH ^ 2 < max_xHH ^ 2)
  { lead := l
    subl := s
    diJetMass := dm
    random := t
    xHHsq := l.xH ^ 2 + s.xH ^ 2
    SR := sr
    SB := dm && !sr
    rank := 10 * bq l.diJetMass + 10 * bq s.diJetMass + bq l.drc + bq s.drc + t }

/-- The full pipeline for slot `s` of one surviving event: build the two
dijets of the slot, sort them by `st`, classify each at its sorted position
against the event four-jet mass `m4j = event.v4j.mass` (line 64: the mass of
the sum over the whole raw jet list), and zip the quadjet with the slot's
tie-break draw `rnd s`. -/
def eventQuadJet (V : VectorOps) (rnd : Nat → ℚ) (e : Event) (s : Nat) : QuadJet :=
  mkQuadJet (classifyDiJet 0 (V.sumMass e.jets) (slotPair V e s).1)
    (classifyDiJet 1 (V.sumMass e.jets) (slotPair V e s).2) (rnd s)

/-- Line 129: `np.max(quadJet.rank, axis=1)` over the event's three slots. -/
def maxRank3 (a b c : ℚ) : ℚ := max a (max b c)

/-- Line 129 for slot 0: `quadJet.rank == np.max(quadJet.rank, axis=1)`. -/
def sel0 (q0 q1 q2 : QuadJet) : Bool :=
  decide (q0.rank = maxRank3 q0.rank q1.rank q2.rank)

/-- Line 129 for slot 1. -/
def sel1 (q0 q1 q2 : QuadJet) : Bool :=
  decide (q1.rank = maxRank3 q0.rank q1.rank q2.rank)

/-- Line 129 for slot 2. -/
def sel2 (q0 q1 q2 : QuadJet) : Bool :=
  decide (q2.rank = maxRank3 q0.rank q1.rank q2.rank)

/-- Number of slots whose `selected` flag is raised by line 129. -/
def countSel (q0 q1 q2 : QuadJet) : Nat :=
  (cond (sel0 q0 q1 q2) 1 0) + (cond (sel1 q0 q1 q2) 1 0) + (cond (sel2 q0 q1 q2) 1 0)

/-- Line 133: `event['quadJet_selected'] = quadJet[quadJet.selected][:,0]`,
the first slot whose `selected` flag is raised (line 129 always raises at
least one, since the maximum is attained). -/
def firstSel (q0 q1 q2 : QuadJet) : QuadJet :=
  if sel0 q0 q1 q2 then q0 else if sel1 q0 q1 q2 then q1 else q2

/-- State of the numpy global pseudo-random generator: the seed it was last
seeded with and the position reached in the seeded stream. -/
structure RngState where
  seed : Nat
  pos : Nat
deriving DecidableEq

/-- Line 38: `np.random.seed(0)` with argument `k` resets the global stream. -/
def npSeed (k : Nat) : RngState := ⟨k, 0⟩

/-- The value the seeded stream yields at position `pos`, scaled into the
tie-break range of line 118 (`np.random.uniform(low=0.1, high=0.9)`).  The
Mersenne-Twister stream itself is abstracted by a deterministic function of
(seed, position): the claims under verification depend only on the stream
being a fixed function of the seed and on the range of the scaled draw, not
on the concrete stream values.  The value always lies in [1/10, 9/10). -/
def rngUniform (seed pos : Nat) : ℚ :=
  1/10 + (4/5) * (((1103515245 * seed + 12345 * pos + 12345) % 2147483648 : Nat) : ℚ) / 2147483648

/-- What the core emits per surviving event (lines 131-136): the weight, the
four-jet mass, and the winning candidate's `diJetMass`, `SB`, `SR` flags. -/
structure EventResult where
  weight : ℚ
  m4j : ℚ
  diJetMass : Bool
  SB : Bool
  SR : Bool
deriving DecidableEq

/-- Lines 115-136 for one surviving event: build the three slot candidates,
apply the line-129 selection, and project the winner's flags. -/
def eventResult (V : VectorOps) (rnd : Nat → ℚ) (e : Event) : EventResult :=
  let q0 := eventQuadJet V rnd e 0
  let q1 := eventQuadJet V rnd e 1
  let q2 := eventQuadJet V rnd e 2
  let w := firstSel q0 q1 q2
  { weight := e.weight
    m4j := V.sumMass e.jets
    diJetMass := w.diJetMass
    SB := w.SB
    SR := w.SR }

/-- One call of `analysis.process` on a batch, at the granularity the claims
need: line 38 reseeds the global generator with the fixed seed 0, line 73
filters the batch, and line 118 draws the tie-breaks row-major over
(surviving event, slot), so survivor `i`, slot `s` consumes stream position
`3*i + s` of the seed-0 stream.  Returns the per-event outputs and the
generator state left behind. -/
def processBatch (V : VectorOps) (batch : List Event) (g : RngState) :
    List EventResult × RngState :=
  let g0 := npSeed 0
  let surv := batch.filter survives
  (surv.mapIdx (fun i e => eventResult V (fun s => rngUniform g0.seed (g0.pos + 3 * i + s)) e),
   ⟨g0.seed, g0.pos + 3 * surv.length⟩)

/-- Indices of the four jets consumed by pairing slot `s`, with multiplicity. -/
def slotIndices (s : Nat) : Multiset Nat :=
  {idx0 s 0, idx1 s 0, idx0 s 1, idx1 s 1}

/-- The partition of jet indices induced by pairing slot `s`: the set of its
two (unordered) constituent-index pairs. -/
def slotPartition (s : Nat) : Finset (Finset Nat) :=
  {{idx0 s 0, idx1 s 0}, {idx0 s 1, idx1 s 1}}

/-- A concrete instance of the Lorentz-vector operations, used only to
evaluate the pipeline at sample inputs in witnesses and counterexamples
(the general theorems hold for every instance). -/
def sampleOps : VectorOps :=
  { sumMass := fun js => js.foldl (fun acc j => acc + j.mass) 0
    pairMass := fun a b => a.mass + b.mass
    deltaR := fun a b => |a.eta - b.eta| + |a.phi - b.phi| }

/-- A selected sample jet (passes pt ≥ 40 and |eta| ≤ 2.4). -/
def jet50 : Jet := { pt := 50, eta := 0, phi := 0, mass := 10 }

/-- A harder sample jet, also selected. -/
def jet100 : Jet := { pt := 100, eta := 0, phi := 0, mass := 10 }

/-- A sample jet failing the pt cut (pt = 30 < 40). -/
def jet30 : Jet := { pt := 30, eta := 0, phi := 0, mass := 5 }

/-- Four identical selected jets: every pairing slot builds identical dijets,
so all three candidate ranks coincide under equal tie-break draws. -/
def tieEvent : Event := { weight := 1, jets := [jet50, jet50, jet50, jet50] }

/-- Five jets, the first unselected, the other four selected: the event
survives the preselection yet the pairing consumes the unselected jet. -/
def unselEvent : Event := { weight := 1, jets := [jet30, jet50, jet50, jet50, jet50] }

/-- Four selected jets not ordered by descending pt (the second is hardest). -/
def unorderedEvent : Event := { weight := 1, jets := [jet50, jet100, jet50, jet50] }

/-- Four selected jets in descending-pt order. -/
def orderedEvent : Event := { weight := 1, jets := [jet100, jet50, jet50, jet50] }

/-- Tie-break draws all equal to 1/2. -/
def rndHalf : Nat → ℚ := fun _ => 1/2

/-- A classified dijet passing both the mass window and the angular window,
with vanishing Higgs residual. -/
def cdPass : CDiJet :=
  { mass := 120, st := 100, dr := 1, lead := jet50, subl := jet50
    diJetMass := true, drc := true, xH := 0 }

/-- A classified dijet failing both windows, with large Higgs residual. -/
def cdFail : CDiJet :=
  { mass := 300, st := 100, dr := 4, lead := jet50, subl := jet50
    diJetMass := false, drc := false, xH := 3 }

/-- A classified dijet passing the mass window but with Higgs residual 2, so
a candidate built from two of these lies outside the signal region. -/
def cdSide : CDiJet :=
  { mass := 160, st := 100, dr := 1, lead := jet50, subl := jet50
    diJetMass := true, drc := true, xH := 2 }

/-- The integer part of the line-128 rank: the discrete mass-window and
angular-window terms, as a natural number. -/
def dsumN (l s : CDiJet) : Nat :=
  10 * (cond l.diJetMass 1 0) + 10 * (cond s.diJetMass 1 0) +
    (cond l.drc 1 0) + (cond s.drc 1 0)

/-- A dijet sample with unit angular separation unless overridden. -/
def djDr (x : ℚ) : DiJet :=
  { mass := 100, st := 80, dr := x, lead := jet50, subl := jet50 }

/-- A dijet sample of mass 100. -/
def djM100 : DiJet :=
  { mass := 100, st := 80, dr := 1, lead := jet50, subl := jet50 }

/-- Claim C1: the three fixed pairing slots are exactly the three distinct
partitions of the four jets into two unordered pairs — within each slot every
one of the four jet indices appears in exactly one of the slot's two dijets
(the slot's index multiset is exactly one copy of each of 0,1,2,3), no two
slots induce the same partition, and each dijet's constituents are precisely
the jets at the slot's table indices. -/
theorem C1_pairing_partitions :
    (slotIndices 0 = {0, 1, 2, 3} ∧ slotIndices 1 = {0, 1, 2, 3} ∧
      slotIndices 2 = {0, 1, 2, 3}) ∧
    (slotPartition 0 ≠ slotPartition 1 ∧ slotPartition 0 ≠ slotPartition 2 ∧
      slotPartition 1 ≠ slotPartition 2) ∧
    (∀ (V : VectorOps) (e : Event) (s p : Nat),
      (mkDiJet V e s p).lead = jetAt e (idx0 s p) ∧
      (mkDiJet V e s p).subl = jetAt e (idx1 s p)) :=
  ⟨by decide, by decide, fun _ _ _ _ => ⟨rfl, rfl⟩⟩

/-- Claim C4: for every quadjet candidate, `SR` holds exactly when
`sqrt(lead.xH^2 + subl.xH^2) < 1.9` (stated over the reals, justifying the
squared comparison carried by the embedding), `SB` implies passing the mass
window and failing `SR`, and `SB` and `SR` are never both true. -/
theorem C4_region_flags (l s : CDiJet) (t : ℚ) :
    ((mkQuadJet l s t).SR = true ↔
      Real.sqrt ((l.xH : ℝ) ^ 2 + (s.xH : ℝ) ^ 2) < 19 / 10) ∧
    ((mkQuadJet l s t).SB = true →
      (mkQuadJet l s t).diJetMass = true ∧ (mkQuadJet l s t).SR = false) ∧
    ¬((mkQuadJet l s t).SB = true ∧ (mkQuadJet l s t).SR = true) := by
  refine ⟨?_, ?_, ?_⟩
  · have h1 : (mkQuadJet l s t).SR = true ↔ l.xH ^ 2 + s.xH ^ 2 < max_xHH ^ 2 := by
      simp [mkQuadJet]
    rw [h1, Real.sqrt_lt' (show (0 : ℝ) < 19 / 10 by norm_num)]
    rw [show ((19 : ℝ) / 10) ^ 2 = ((361 / 100 : ℚ) : ℝ) by norm_num]
    rw [show ((l.xH : ℝ) ^ 2 + (s.xH : ℝ) ^ 2) = ((l.xH ^ 2 + s.xH ^ 2 : ℚ) : ℝ) by
      push_cast
      ring]
    rw [show (max_xHH : ℚ) ^ 2 = (361 / 100 : ℚ) by rw [max_xHH]; norm_num]
    exact Iff.symm Rat.cast_lt
  · intro hsb
    simp only [mkQuadJet, Bool.and_eq_true, Bool.not_eq_true',
      decide_eq_false_iff_not, not_lt] at hsb
    constructor
    · simp only [mkQuadJet, Bool.and_eq_true]
      exact hsb.1
    · simp only [mkQuadJet, decide_eq_false_iff_not, not_lt]
      exact hsb.2
  · rintro ⟨hsb, hsr⟩
    simp only [mkQuadJet, Bool.and_eq_true, Bool.not_eq_true',
      decide_eq_false_iff_not, not_lt] at hsb
    simp only [mkQuadJet, decide_eq_true_eq] at hsr
    exact absurd hsr (not_lt.mpr hsb.2)

/-- Witness for claim C4 at a concrete sideband candidate (mass window
passed, Higgs residuals 2 and 2, so the candidate is outside the signal
region). -/
theorem C4_region_flags_witness :
    (mkQuadJet cdSide cdSide (1/2)).diJetMass = true ∧
      (mkQuadJet cdSide cdSide (1/2)).SR = false :=
  (C4_region_flags cdSide cdSide (1/2)).2.1 (by norm_num [mkQuadJet, cdSide, max_xHH])

/-- Claim C6: the lead-role mass window is the strict interval (52, 180), the
subleading-role window is (50, 173), and the quadjet `diJetMass` flag is the
conjunction of its two dijets' flags. -/
theorem C6_mass_windows (m4j : ℚ) (d : DiJet) (l s : CDiJet) (t : ℚ) :
    ((classifyDiJet 0 m4j d).diJetMass = true ↔ 52 < d.mass ∧ d.mass < 180) ∧
    ((classifyDiJet 1 m4j d).diJetMass = true ↔ 50 < d.mass ∧ d.mass < 173) ∧
    (mkQuadJet l s t).diJetMass = (l.diJetMass && s.diJetMass) := by
  refine ⟨?_, ?_, rfl⟩ <;>
    simp [classifyDiJet, minDiJetMass, maxDiJetMass]

/-- Witness for claim C6: a dijet of mass 100 passes the lead-role window. -/
theorem C6_mass_windows_witness :
    (classifyDiJet 0 400 djM100).diJetMass = true :=
  (C6_mass_windows 400 djM100 cdPass cdPass 0).1.mpr (by norm_num [djM100])

/-- Claim C7: `drc` holds exactly when `dr` lies strictly inside the sliding
window — lead role `(360/m4j - 0.5, max(650/m4j + 0.5, 1.5))`, subleading
role `(235/m4j + 0.0, max(650/m4j + 0.7, 1.5))` — and at `m4j = 400` the lead
bounds evaluate to 2/5 and 17/8, so `dr = 1` passes and `dr = 5/2` fails. -/
theorem C7_dr_windows (m4j : ℚ) (d : DiJet) :
    ((classifyDiJet 0 m4j d).drc = true ↔
      360 / m4j - 1/2 < d.dr ∧ d.dr < max (650 / m4j + 1/2) (3/2)) ∧
    ((classifyDiJet 1 m4j d).drc = true ↔
      235 / m4j + 0 < d.dr ∧ d.dr < max (650 / m4j + 7/10) (3/2)) ∧
    360 / (400 : ℚ) - 1/2 = 2/5 ∧
    max (650 / (400 : ℚ) + 1/2) (3/2) = 17/8 ∧
    (classifyDiJet 0 400 (djDr 1)).drc = true ∧
    (classifyDiJet 0 400 (djDr (5/2))).drc = false := by
  have e0 : ∀ d' : DiJet, (classifyDiJet 0 m4j d').drc =
      (decide (360 / m4j + -(1/2) < d'.dr) &&
        decide (d'.dr < max (650 / m4j + 1/2) (3/2))) := fun _ => rfl
  have e1 : ∀ d' : DiJet, (classifyDiJet 1 m4j d').drc =
      (decide (235 / m4j + 0 < d'.dr) &&
        decide (d'.dr < max (650 / m4j + 7/10) (3/2))) := fun _ => rfl
  refine ⟨?_, ?_, by norm_num, by rw [max_eq_left] <;> norm_num, ?_, ?_⟩
  · rw [e0 d, Bool.and_eq_true, decide_eq_true_eq, decide_eq_true_eq,
      sub_eq_add_neg]
  · rw [e1 d, Bool.and_eq_true, decide_eq_true_eq, decide_eq_true_eq]
  · have e2 : (classifyDiJet 0 400 (djDr 1)).drc =
        (decide ((360 : ℚ) / 400 + -(1/2) < 1) &&
          decide ((1 : ℚ) < max ((650 : ℚ) / 400 + 1/2) (3/2))) := rfl
    rw [e2, Bool.and_eq_true, decide_eq_true_eq, decide_eq_true_eq]
    constructor
    · norm_num
    · rw [lt_max_iff]
      norm_num
  · have e3 : (classifyDiJet 0 400 (djDr (5/2))).drc =
        (decide ((360 : ℚ) / 400 + -(1/2) < 5/2) &&
          decide ((5/2 : ℚ) < max ((650 : ℚ) / 400 + 1/2) (3/2))) := rfl
    rw [e3, Bool.and_eq_false_iff]
    right
    rw [decide_eq_false_iff_not, not_lt, max_le_iff]
    constructor <;> norm_num

/-- Witness for claim C7: at `m4j = 400` a subleading dijet with `dr = 1`
passes its sliding window. -/
theorem C7_dr_windows_witness :
    (classifyDiJet 1 400 (djDr 1)).drc = true :=
  (C7_dr_windows 400 (djDr 1)).2.1.mpr (by norm_num [djDr, lt_max_iff])

/-- Claim C8: within every pairing slot of every event the quadjet's lead
dijet has scalar-pt sum at least that of the subleading dijet, for every
vector-operation instance, tie-break stream and slot. -/
theorem C8_lead_st_ge (V : VectorOps) (rnd : Nat → ℚ) (e : Event) (s : Nat) :
    (eventQuadJet V rnd e s).subl.st ≤ (eventQuadJet V rnd e s).lead.st ∧
    (slotPair V e s).2.st ≤ (slotPair V e s).1.st := by
  have h : (slotPair V e s).2.st ≤ (slotPair V e s).1.st := by
    unfold slotPair
    split_ifs with hlt
    · exact le_of_lt hlt
    · exact le_of_not_lt hlt
  exact ⟨h, h⟩

lemma selected_jet50 : selected jet50 = true := by norm_num [selected, jet50]

lemma selected_jet100 : selected jet100 = true := by norm_num [selected, jet100]

lemma selected_jet30 : selected jet30 = false := by norm_num [selected, jet30]

lemma survives_tieEvent : survives tieEvent = true := by
  simp [survives, nJetSelected, tieEvent, selected_jet50]

/-- The discrete rank terms of line 128 sum to the natural number `dsumN`. -/
lemma dsum_cast (l s : CDiJet) :
    ((dsumN l s : ℚ)) = 10 * bq l.diJetMass + 10 * bq s.diJetMass + bq l.drc + bq s.drc := by
  obtain ⟨m1, st1, dr1, lj1, sj1, dm1, dc1, x1⟩ := l
  obtain ⟨m2, st2, dr2, lj2, sj2, dm2, dc2, x2⟩ := s
  cases dm1 <;> cases dm2 <;> cases dc1 <;> cases dc2 <;> norm_num [dsumN, bq]

/-- Claim C3: the rank of every quadjet candidate is
`10*lead.diJetMass + 10*subl.diJetMass + lead.drc + subl.drc + tieBreak`, and
for tie-breaks in the range numpy guarantees (a subrange of [0.1, 0.9)) any
two candidates with different discrete term sums are ordered by those sums:
the tie-break never reorders them. -/
theorem C3_rank_dominance :
    (∀ (l s : CDiJet) (t : ℚ), (mkQuadJet l s t).rank =
      10 * bq l.diJetMass + 10 * bq s.diJetMass + bq l.drc + bq s.drc + t) ∧
    (∀ (l1 s1 l2 s2 : CDiJet) (t1 t2 : ℚ),
      1/10 ≤ t1 → t1 < 9/10 → 1/10 ≤ t2 → t2 < 9/10 →
      dsumN l2 s2 < dsumN l1 s1 →
      (mkQuadJet l2 s2 t2).rank < (mkQuadJet l1 s1 t1).rank) := by
  constructor
  · intro l s t
    rfl
  · intro l1 s1 l2 s2 t1 t2 ha hb hc hd hlt
    have r1 : (mkQuadJet l1 s1 t1).rank =
        10 * bq l1.diJetMass + 10 * bq s1.diJetMass + bq l1.drc + bq s1.drc + t1 := rfl
    have r2 : (mkQuadJet l2 s2 t2).rank =
        10 * bq l2.diJetMass + 10 * bq s2.diJetMass + bq l2.drc + bq s2.drc + t2 := rfl
    have c1 := dsum_cast l1 s1
    have c2 := dsum_cast l2 s2
    have hq : (dsumN l2 s2 : ℚ) + 1 ≤ (dsumN l1 s1 : ℚ) := by
      have hn : dsumN l2 s2 + 1 ≤ dsumN l1 s1 := hlt
      exact_mod_cast hn
    linarith

/-- Witness for claim C3: a candidate passing everything beats one failing
everything under equal tie-break draws. -/
theorem C3_rank_dominance_witness :
    (mkQuadJet cdFail cdFail (1/2)).rank < (mkQuadJet cdPass cdPass (1/2)).rank :=
  C3_rank_dominance.2 cdPass cdPass cdFail cdFail (1/2) (1/2)
    (by norm_num) (by norm_num) (by norm_num) (by norm_num) (by decide)

/-- Claim C5 (amended): at least one of the three candidates is always
flagged selected by line 129; exactly one is flagged whenever the three ranks
are pairwise distinct (which the tie-break draws make almost sure but do not
guarantee); and the winner extraction is a pure function of the candidate
set, so re-running it on the same candidates and draws yields the same
winner. -/
theorem C5_selection_amended (q0 q1 q2 : QuadJet) :
    1 ≤ countSel q0 q1 q2 ∧
    (q0.rank ≠ q1.rank → q0.rank ≠ q2.rank → q1.rank ≠ q2.rank →
      countSel q0 q1 q2 = 1) ∧
    firstSel q0 q1 q2 = firstSel q0 q1 q2 := by
  have hM : maxRank3 q0.rank q1.rank q2.rank = q0.rank ∨
      maxRank3 q0.rank q1.rank q2.rank = q1.rank ∨
      maxRank3 q0.rank q1.rank q2.rank = q2.rank := by
    unfold maxRank3
    rcases max_choice q0.rank (max q1.rank q2.rank) with h | h
    · exact Or.inl h
    · rcases max_choice q1.rank q2.rank with h2 | h2
      · exact Or.inr (Or.inl (h.trans h2))
      · exact Or.inr (Or.inr (h.trans h2))
  refine ⟨?_, ?_, rfl⟩
  · rcases hM with h | h | h
    · have h0 : sel0 q0 q1 q2 = true := by
        unfold sel0; rw [decide_eq_true_eq]; exact h.symm
      simp only [countSel, h0]
      cases sel1 q0 q1 q2 <;> cases sel2 q0 q1 q2 <;> simp
    · have h1 : sel1 q0 q1 q2 = true := by
        unfold sel1; rw [decide_eq_true_eq]; exact h.symm
      simp only [countSel, h1]
      cases sel0 q0 q1 q2 <;> cases sel2 q0 q1 q2 <;> simp
    · have h2 : sel2 q0 q1 q2 = true := by
        unfold sel2; rw [decide_eq_true_eq]; exact h.symm
      simp only [countSel, h2]
      cases sel0 q0 q1 q2 <;> cases sel1 q0 q1 q2 <;> simp
  · intro hne01 hne02 hne12
    rcases hM with h | h | h
    · have h0 : sel0 q0 q1 q2 = true := by
        unfold sel0; rw [decide_eq_true_eq]; exact h.symm
      have h1 : sel1 q0 q1 q2 = false := by
        unfold sel1; rw [decide_eq_false_iff_not]
        intro hq; exact hne01 (hq.trans h).symm
      have h2 : sel2 q0 q1 q2 = false := by
        unfold sel2; rw [decide_eq_false_iff_not]
        intro hq; exact hne02 (hq.trans h).symm
      simp [countSel, h0, h1, h2]
    · have h0 : sel0 q0 q1 q2 = false := by
        unfold sel0; rw [decide_eq_false_iff_not]
        intro hq; exact hne01 (hq.trans h)
      have h1 : sel1 q0 q1 q2 = true := by
        unfold sel1; rw [decide_eq_true_eq]; exact h.symm
      have h2 : sel2 q0 q1 q2 = false := by
        unfold sel2; rw [decide_eq_false_iff_not]
        intro hq; exact hne12 (hq.trans h).symm
      simp [countSel, h0, h1, h2]
    · have h0 : sel0 q0 q1 q2 = false := by
        unfold sel0; rw [decide_eq_false_iff_not]
        intro hq; exact hne02 (hq.trans h)
      have h1 : sel1 q0 q1 q2 = false := by
        unfold sel1; rw [decide_eq_false_iff_not]
        intro hq; exact hne12 (hq.trans h)
      have h2 : sel2 q0 q1 q2 = true := by
        unfold sel2; rw [decide_eq_true_eq]; exact h.symm
      simp [countSel, h0, h1, h2]

/-- Witness for the amended claim C5 at three concrete candidates with
pairwise distinct ranks. -/
theorem C5_selection_amended_witness :
    countSel (mkQuadJet cdPass cdPass (1/2)) (mkQuadJet cdFail cdFail (1/3))
      (mkQuadJet cdFail cdFail (1/4)) = 1 :=
  (C5_selection_amended (mkQuadJet cdPass cdPass (1/2)) (mkQuadJet cdFail cdFail (1/3))
      (mkQuadJet cdFail cdFail (1/4))).2.1
    (by norm_num [mkQuadJet, cdPass, cdFail, bq])
    (by norm_num [mkQuadJet, cdPass, cdFail, bq])
    (by norm_num [mkQuadJet, cdPass, cdFail, bq])

/-- Counterexample to claim C5 as stated: on a surviving event with four
identical jets all three candidate ranks coincide under equal tie-break
draws, and line 129 flags all three candidates selected — not exactly one. -/
theorem C5_selection_counterexample :
    survives tieEvent = true ∧
    countSel (eventQuadJet sampleOps rndHalf tieEvent 0)
      (eventQuadJet sampleOps rndHalf tieEvent 1)
      (eventQuadJet sampleOps rndHalf tieEvent 2) = 3 := by
  refine ⟨survives_tieEvent, ?_⟩
  have hd : ∀ s p : Nat, s < 3 → p < 2 →
      mkDiJet sampleOps tieEvent s p = mkDiJet sampleOps tieEvent 0 0 := by
    intro s p hs hp
    interval_cases s <;> interval_cases p <;> rfl
  have hsp : ∀ s : Nat, s < 3 → slotPair sampleOps tieEvent s =
      (mkDiJet sampleOps tieEvent 0 0, mkDiJet sampleOps tieEvent 0 0) := by
    intro s hs
    unfold slotPair
    rw [hd s 0 hs (by norm_num), hd s 1 hs (by norm_num)]
    exact ite_self _
  have hqq : ∀ s : Nat, s < 3 → eventQuadJet sampleOps rndHalf tieEvent s =
      eventQuadJet sampleOps rndHalf tieEvent 0 := by
    intro s hs
    unfold eventQuadJet
    rw [hsp s hs, hsp 0 (by norm_num)]
    rfl
  rw [hqq 1 (by norm_num), hqq 2 (by norm_num)]
  unfold countSel sel0 sel1 sel2 maxRank3
  rw [max_self, max_self]
  simp

/-- Counterexample to claim C2 as stated: an event with five jets whose first
jet fails the pt cut still survives the ≥4-selected filter (the other four
jets are selected), yet the pairing stage builds the slot-0 dijet from that
unselected first jet. -/
theorem C2_selected_jets_counterexample :
    survives unselEvent = true ∧
    (mkDiJet sampleOps unselEvent 0 0).lead = jet30 ∧
    selected jet30 = false := by
  refine ⟨?_, rfl, selected_jet30⟩
  simp [survives, nJetSelected, unselEvent, selected_jet30, selected_jet50]

/-- Claim C2 (amended): the pairing stage always consumes the jets at
positions 0-3 of the raw jet list, irrespective of the selection flags; in
particular, for an event with exactly four jets (the documented toy-sample
topology) surviving the filter, every jet contributing to a dijet is
selected. -/
theorem C2_first_four_amended :
    (∀ (V : VectorOps) (e : Event) (s p : Nat), s < 3 → p < 2 →
      idx0 s p < 4 ∧ idx1 s p < 4 ∧
      (mkDiJet V e s p).lead = jetAt e (idx0 s p) ∧
      (mkDiJet V e s p).subl = jetAt e (idx1 s p)) ∧
    (∀ (V : VectorOps) (e : Event), e.jets.length = 4 → survives e = true →
      ∀ s p : Nat, s < 3 → p < 2 →
      selected (mkDiJet V e s p).lead = true ∧
      selected (mkDiJet V e s p).subl = true) := by
  constructor
  · intro V e s p hs hp
    refine ⟨?_, ?_, rfl, rfl⟩ <;> (interval_cases s <;> interval_cases p <;> decide)
  · intro V e hlen hsurv s p hs hp
    have hidx0 : idx0 s p < 4 := by interval_cases s <;> interval_cases p <;> decide
    have hidx1 : idx1 s p < 4 := by interval_cases s <;> interval_cases p <;> decide
    obtain ⟨w, js⟩ := e
    rcases js with _ | ⟨a, js⟩
    · simp at hlen
    rcases js with _ | ⟨b, js⟩
    · simp at hlen
    rcases js with _ | ⟨c, js⟩
    · simp at hlen
    rcases js with _ | ⟨d4, js⟩
    · simp at hlen
    rcases js with _ | ⟨x, js⟩
    case cons =>
      simp only [List.length_cons] at hlen
      omega
    cases hsa : selected a <;> cases hsb : selected b <;> cases hsc : selected c <;>
        cases hsd : selected d4 <;>
      simp [survives, nJetSelected, hsa, hsb, hsc, hsd] at hsurv
    have hall : ∀ i : Nat, i < 4 →
        selected (jetAt ⟨w, [a, b, c, d4]⟩ i) = true := by
      intro i hi
      interval_cases i
      · exact hsa
      · exact hsb
      · exact hsc
      · exact hsd
    exact ⟨hall _ hidx0, hall _ hidx1⟩

/-- Witness for the amended claim C2 at a concrete four-jet event. -/
theorem C2_first_four_amended_witness :
    selected (mkDiJet sampleOps tieEvent 0 0).lead = true ∧
    selected (mkDiJet sampleOps tieEvent 0 0).subl = true :=
  C2_first_four_amended.2 sampleOps tieEvent rfl survives_tieEvent 0 0
    (by decide) (by decide)

/-- Counterexample to claim C9 as stated: in a surviving event whose second
jet is harder than its first, the slot-0 lead dijet stores the softer jet as
`lead` and the harder one as `subl` — the constituents are taken by position,
not by pt. -/
theorem C9_jet_order_counterexample :
    survives unorderedEvent = true ∧
    (eventQuadJet sampleOps rndHalf unorderedEvent 0).lead.lead.pt <
      (eventQuadJet sampleOps rndHalf unorderedEvent 0).lead.subl.pt := by
  constructor
  · simp [survives, nJetSelected, unorderedEvent, selected_jet50, selected_jet100]
  · have hcond : ¬((mkDiJet sampleOps unorderedEvent 0 0).st <
        (mkDiJet sampleOps unorderedEvent 0 1).st) := by
      show ¬(jet50.pt + jet100.pt < jet50.pt + jet50.pt)
      norm_num [jet50, jet100]
    have hsp : slotPair sampleOps unorderedEvent 0 =
        (mkDiJet sampleOps unorderedEvent 0 0, mkDiJet sampleOps unorderedEvent 0 1) := by
      unfold slotPair
      exact if_neg hcond
    have hlead : (eventQuadJet sampleOps rndHalf unorderedEvent 0).lead =
        classifyDiJet 0 (sampleOps.sumMass unorderedEvent.jets)
          (slotPair sampleOps unorderedEvent 0).1 := rfl
    rw [hlead, hsp]
    show jet50.pt < jet100.pt
    norm_num [jet50, jet100]

/-- Claim C9 (amended): the constituent stored as `lead` is the jet at the
pairing-table index from the first row, which is always the smaller list
position of the pair; consequently `lead.pt ≥ subl.pt` holds in every dijet
whenever the event's first four jets are in descending-pt order (as for
pt-ordered NanoAOD input), but not in general. -/
theorem C9_jet_order_amended (V : VectorOps) (e : Event)
    (h01 : (jetAt e 1).pt ≤ (jetAt e 0).pt)
    (h12 : (jetAt e 2).pt ≤ (jetAt e 1).pt)
    (h23 : (jetAt e 3).pt ≤ (jetAt e 2).pt) :
    ∀ s p : Nat, s < 3 → p < 2 →
      (mkDiJet V e s p).subl.pt ≤ (mkDiJet V e s p).lead.pt := by
  intro s p hs hp
  interval_cases s <;> interval_cases p
  · exact h01
  · exact h23
  · exact h12.trans h01
  · exact h23.trans h12
  · exact (h23.trans h12).trans h01
  · exact h12

/-- Witness for the amended claim C9 at a concrete pt-ordered event. -/
theorem C9_jet_order_amended_witness :
    (mkDiJet sampleOps orderedEvent 0 0).subl.pt ≤
      (mkDiJet sampleOps orderedEvent 0 0).lead.pt :=
  C9_jet_order_amended sampleOps orderedEvent
    (show jet50.pt ≤ jet100.pt by norm_num [jet50, jet100])
    (le_refl jet50.pt) (le_refl jet50.pt) 0 0 (by decide) (by decide)

/-- Claim C10: one call of the core on a batch reseeds the generator with the
fixed seed 0, so its outputs do not depend on the incoming generator state,
and re-running the core on the same batch (even consuming the state left by
the first run) reproduces the outputs and the final state exactly. -/
theorem C10_batch_determinism (V : VectorOps) (batch : List Event) (g1 g2 : RngState) :
    (processBatch V batch g1).1 = (processBatch V batch g2).1 ∧
    (processBatch V batch (processBatch V batch g1).2).1 = (processBatch V batch g1).1 ∧
    (processBatch V batch g1).2 = (processBatch V batch g2).2 :=
  ⟨rfl, rfl, rfl⟩

end Multijet
